import Mathlib

/-!
Shallow embedding of `src/main.cpp` (K0rby/3DEngine): a single `main` that
initializes GLFW, creates an 800x600 window, loads GL function pointers via
GLAD, uploads one triangle, compiles and links a vertex/fragment shader pair,
runs a render loop until the window's close flag is set, and cleans up.

The external libraries (GLFW, the GL driver) are modelled by an environment
`Env` recording the outcome of each external call (init success, window
creation success, loader success, compile/link statuses, per-iteration key
and close-event inputs).  The program itself is modelled as a pure function
producing the ordered trace of library calls it makes, together with the
process exit code.  The render loop is fuel-bounded; a run that does not
terminate within the given fuel yields `none`.
-/

namespace Engine3D

/-- GL/GLFW enum constants used by `main.cpp` (numeric values as in the headers). -/
def GLFW_CONTEXT_VERSION_MAJOR : Nat := 0x00022002

def GLFW_CONTEXT_VERSION_MINOR : Nat := 0x00022003

def GLFW_OPENGL_PROFILE : Nat := 0x00022008

def GLFW_OPENGL_CORE_PROFILE : Nat := 0x00032001

def GLFW_KEY_ESCAPE : Nat := 256

def GL_ARRAY_BUFFER : Nat := 0x8892

def GL_STATIC_DRAW : Nat := 0x88E4

def GL_FLOAT : Nat := 0x1406

def GL_COLOR_BUFFER_BIT : Nat := 0x4000

def GL_TRIANGLES : Nat := 0x0004

def GL_VERTEX_SHADER : Nat := 0x8B31

def GL_FRAGMENT_SHADER : Nat := 0x8B30

def GL_COMPILE_STATUS : Nat := 0x8B81

def GL_LINK_STATUS : Nat := 0x8B82

/-- The window title literal of `glfwCreateWindow(800, 600, "Triangulo OpenGL", ...)`. -/
def windowTitle : String :=
  "Triangulo OpenGL"

/-- The GLSL vertex-stage source embedded in `main.cpp` (raw string literal). -/
def vertexShaderSource : String :=
  "\n#version 330 core\nlayout (location = 0) in vec3 aPos;\nvoid main() \x7b\n    gl_Position = vec4(aPos, 1.0);\n\x7d\n"

/-- The GLSL fragment-stage source embedded in `main.cpp` (raw string literal). -/
def fragmentShaderSource : String :=
  "\n#version 330 core\nout vec4 FragColor;\nvoid main() \x7b\n    FragColor = vec4(1.0, 0.5, 0.2, 1.0);\n\x7d\n"

/-- The message printed to `std::cerr` when GLAD loading fails. -/
def gladFailMsg : String :=
  "Failed to initialize GLAD\n"

/-- Header of the vertex-shader compile-failure message. -/
def vsErrHeader : String :=
  "ERROR::VERTEX_SHADER_COMPILATION_FAILED\n"

/-- Header of the fragment-shader compile-failure message. -/
def fsErrHeader : String :=
  "ERROR::FRAGMENT_SHADER_COMPILATION_FAILED\n"

/-- Header of the program link-failure message. -/
def linkErrHeader : String :=
  "ERROR::SHADER_PROGRAM_LINKING_FAILED\n"

/-- GL object handles as returned by the (modelled) driver.  `main.cpp` holds
them in the variables of the same names; the numeric values are symbolic. -/
def VAO : Nat := 1

def VBO : Nat := 1

def vertexShader : Nat := 1

def fragmentShader : Nat := 2

def shaderProgram : Nat := 1

/-- The fixed `float vertices[9]` array of `main.cpp`, as exact rationals. -/
def vertices : List ℚ :=
  [-1/2, -1/2, 0, 1/2, -1/2, 0, 0, 1/2, 0]

/-- One library call made by `main`, with the arguments the claims speak about.
Calls that return a value additionally record the (environment-supplied)
result, e.g. `getKey` records whether the result compared equal to
`GLFW_PRESS`. -/
inductive GLCall where
  | glfwInit
  | windowHint (target value : Nat)
  | createWindow (width height : Nat) (title : String)
  | makeContextCurrent
  | setFramebufferSizeCallback
  | gladLoad
  | cerr (msg : String)
  | cerrLog (header : String) (log : List Char)
  | genVertexArrays (n handle : Nat)
  | genBuffers (n handle : Nat)
  | bindVertexArray (vao : Nat)
  | bindBuffer (target vbo : Nat)
  | bufferData (target size : Nat) (data : List ℚ) (usage : Nat)
  | vertexAttribPointer (index size typ : Nat) (normalized : Bool) (stride offset : Nat)
  | enableVertexAttribArray (index : Nat)
  | createShader (typ handle : Nat)
  | shaderSource (shader : Nat) (src : String)
  | compileShader (shader : Nat)
  | getShaderiv (shader pname : Nat) (success : Bool)
  | getShaderInfoLog (shader bufSize : Nat) (log : List Char)
  | createProgram (handle : Nat)
  | attachShader (program shader : Nat)
  | linkProgram (program : Nat)
  | getProgramiv (program pname : Nat) (success : Bool)
  | getProgramInfoLog (program bufSize : Nat) (log : List Char)
  | deleteShader (shader : Nat)
  | getKey (key : Nat) (pressed : Bool)
  | setWindowShouldClose
  | glClear (mask : Nat)
  | useProgram (program : Nat)
  | drawArrays (mode first count : Nat)
  | swapBuffers
  | pollEvents
  | deleteVertexArrays (n handle : Nat)
  | deleteBuffers (n handle : Nat)
  | deleteProgram (program : Nat)
  | glfwTerminate
  deriving DecidableEq, Repr

/-- Outcomes of the external calls `main` makes: what GLFW, GLAD and the GL
driver answer.  `escAt i` is whether `glfwGetKey(window, GLFW_KEY_ESCAPE)`
returns `GLFW_PRESS` during loop iteration `i`; `closeAt i` is whether
`glfwPollEvents` of iteration `i` delivers an OS close event that sets the
window's close flag. -/
structure Env where
  glfwInitOk : Bool
  createWindowOk : Bool
  gladOk : Bool
  vertexCompileOk : Bool
  fragmentCompileOk : Bool
  linkOk : Bool
  vertexLog : List Char
  fragmentLog : List Char
  programLog : List Char
  escAt : Nat → Bool
  closeAt : Nat → Bool

/-- `glGetShaderInfoLog`/`glGetProgramInfoLog` called with a 512-byte buffer
store at most 511 characters of the log (plus a NUL terminator). -/
def logTrunc (log : List Char) : List Char :=
  log.take 511

/-- Calls made up to and including `glfwInit()` (line 34). -/
def initTrace : List GLCall :=
  [GLCall.glfwInit]

/-- Calls made up to and including `glfwCreateWindow` (lines 34-42). -/
def windowTrace : List GLCall :=
  initTrace ++
    [GLCall.windowHint GLFW_CONTEXT_VERSION_MAJOR 3,
     GLCall.windowHint GLFW_CONTEXT_VERSION_MINOR 3,
     GLCall.windowHint GLFW_OPENGL_PROFILE GLFW_OPENGL_CORE_PROFILE,
     GLCall.createWindow 800 600 windowTitle]

/-- Calls made up to and including `gladLoadGLLoader` (lines 34-51). -/
def contextTrace : List GLCall :=
  windowTrace ++
    [GLCall.makeContextCurrent,
     GLCall.setFramebufferSizeCallback,
     GLCall.gladLoad]

/-- Geometry upload: VAO/VBO creation, data upload, attribute setup (lines 65-78). -/
def geomTrace : List GLCall :=
  [GLCall.genVertexArrays 1 VAO,
   GLCall.genBuffers 1 VBO,
   GLCall.bindVertexArray VAO,
   GLCall.bindBuffer GL_ARRAY_BUFFER VBO,
   GLCall.bufferData GL_ARRAY_BUFFER (9 * 4) vertices GL_STATIC_DRAW,
   GLCall.vertexAttribPointer 0 3 GL_FLOAT false (3 * 4) 0,
   GLCall.enableVertexAttribArray 0]

/-- Shader compilation, linking and per-stage error reporting (lines 82-116).
Each `if (!success)` branch fetches up to 511 characters of the log and
prints it to `std::cerr`; execution continues either way. -/
def shaderTrace (env : Env) : List GLCall :=
  [GLCall.createShader GL_VERTEX_SHADER vertexShader,
   GLCall.shaderSource vertexShader vertexShaderSource,
   GLCall.compileShader vertexShader,
   GLCall.getShaderiv vertexShader GL_COMPILE_STATUS env.vertexCompileOk] ++
  (if env.vertexCompileOk then []
   else
     [GLCall.getShaderInfoLog vertexShader 512 (logTrunc env.vertexLog),
      GLCall.cerrLog vsErrHeader (logTrunc env.vertexLog)]) ++
  [GLCall.createShader GL_FRAGMENT_SHADER fragmentShader,
   GLCall.shaderSource fragmentShader fragmentShaderSource,
   GLCall.compileShader fragmentShader,
   GLCall.getShaderiv fragmentShader GL_COMPILE_STATUS env.fragmentCompileOk] ++
  (if env.fragmentCompileOk then []
   else
     [GLCall.getShaderInfoLog fragmentShader 512 (logTrunc env.fragmentLog),
      GLCall.cerrLog fsErrHeader (logTrunc env.fragmentLog)]) ++
  [GLCall.createProgram shaderProgram,
   GLCall.attachShader shaderProgram vertexShader,
   GLCall.attachShader shaderProgram fragmentShader,
   GLCall.linkProgram shaderProgram,
   GLCall.getProgramiv shaderProgram GL_LINK_STATUS env.linkOk] ++
  (if env.linkOk then []
   else
     [GLCall.getProgramInfoLog shaderProgram 512 (logTrunc env.programLog),
      GLCall.cerrLog linkErrHeader (logTrunc env.programLog)]) ++
  [GLCall.deleteShader vertexShader,
   GLCall.deleteShader fragmentShader]

/-- Everything `main` does before the render loop, on the all-successes path. -/
def setupTrace (env : Env) : List GLCall :=
  contextTrace ++ geomTrace ++ shaderTrace env

/-- Cleanup after the loop: delete VAO, VBO, program, then `glfwTerminate` (lines 138-142). -/
def shutdownTrace : List GLCall :=
  [GLCall.deleteVertexArrays 1 VAO,
   GLCall.deleteBuffers 1 VBO,
   GLCall.deleteProgram shaderProgram,
   GLCall.glfwTerminate]

/-- The render loop of lines 119-135.  `i` is the iteration index,
`shouldClose` the window's close flag at the top of the iteration, `fuel` a
bound on the number of remaining checks.  Each iteration polls the Escape
key (setting the close flag if it reads `GLFW_PRESS`), clears the color
buffer, binds the program and the VAO, draws 3 vertices from index 0 as
triangles, swaps buffers and polls events (which may deliver an OS close
event). -/
def renderLoop (env : Env) : Nat → Bool → Nat → Option (List GLCall)
  | _, _, 0 => none
  | i, shouldClose, fuel + 1 =>
    if shouldClose then some []
    else
      let esc := env.escAt i
      (renderLoop env (i + 1) (esc || env.closeAt i) fuel).map
        (fun rest =>
          GLCall.getKey GLFW_KEY_ESCAPE esc ::
            ((if esc then [GLCall.setWindowShouldClose] else []) ++
              (GLCall.glClear GL_COLOR_BUFFER_BIT ::
                GLCall.useProgram shaderProgram ::
                GLCall.bindVertexArray VAO ::
                GLCall.drawArrays GL_TRIANGLES 0 3 ::
                GLCall.swapBuffers ::
                GLCall.pollEvents :: rest)))

/-- The calls of one full loop iteration in which the Escape poll returned
`esc`: key poll, conditional close-flag set, clear, program bind, VAO bind,
draw call, buffer swap, event poll — in this order. -/
def iterBody (esc : Bool) : List GLCall :=
  GLCall.getKey GLFW_KEY_ESCAPE esc ::
    ((if esc then [GLCall.setWindowShouldClose] else []) ++
      [GLCall.glClear GL_COLOR_BUFFER_BIT,
       GLCall.useProgram shaderProgram,
       GLCall.bindVertexArray VAO,
       GLCall.drawArrays GL_TRIANGLES 0 3,
       GLCall.swapBuffers,
       GLCall.pollEvents])

/-- `main` (lines 32-144): the full call trace and the process exit code.
`none` means the render loop did not terminate within `fuel` iterations. -/
def mainRun (env : Env) (fuel : Nat) : Option (List GLCall × Int) :=
  if env.glfwInitOk = false then some (initTrace, -1)
  else if env.createWindowOk = false then some (windowTrace ++ [GLCall.glfwTerminate], -1)
  else if env.gladOk = false then some (contextTrace ++ [GLCall.cerr gladFailMsg], -1)
  else
    (renderLoop env 0 false fuel).map
      (fun loopTr => (setupTrace env ++ loopTr ++ shutdownTrace, 0))

/-! ### Shader semantics

The two embedded GLSL sources are straight-line programs; their meaning is
transcribed here over exact rationals. -/

/-- A GLSL `vec3` value. -/
structure Vec3 where
  x : ℚ
  y : ℚ
  z : ℚ
  deriving DecidableEq, Repr

/-- A GLSL `vec4` value. -/
structure Vec4 where
  x : ℚ
  y : ℚ
  z : ℚ
  w : ℚ
  deriving DecidableEq, Repr

/-- Meaning of the vertex stage: `gl_Position = vec4(aPos, 1.0);`. -/
def vertexShaderMain (aPos : Vec3) : Vec4 :=
  ⟨aPos.x, aPos.y, aPos.z, 1⟩

/-- Meaning of the fragment stage: `FragColor = vec4(1.0, 0.5, 0.2, 1.0);`
for every fragment (the shader reads no inputs). -/
def fragmentShaderMain : Vec4 :=
  ⟨1, 1/2, 1/5, 1⟩

/-- Perspective divide taking a clip-space position to normalized device
coordinates. -/
def ndcOf (v : Vec4) : Vec3 :=
  ⟨v.x / v.w, v.y / v.w, v.z / v.w⟩

/-- Group a flat float array into 3-component vertices, as the
`glVertexAttribPointer(0, 3, GL_FLOAT, GL_FALSE, 3*sizeof(float), 0)` layout
instructs the GPU to. -/
def vec3sOfFloats : List ℚ → List Vec3
  | x :: y :: z :: rest => ⟨x, y, z⟩ :: vec3sOfFloats rest
  | _ => []

/-! ### Trace predicates -/

/-- Is this call `glGenVertexArrays`? -/
def isGenVAO : GLCall → Bool
  | GLCall.genVertexArrays _ _ => true
  | _ => false

/-- Is this call `glGenBuffers`? -/
def isGenVBO : GLCall → Bool
  | GLCall.genBuffers _ _ => true
  | _ => false

/-- Is this call `glCreateProgram`? -/
def isCreateProg : GLCall → Bool
  | GLCall.createProgram _ => true
  | _ => false

/-- Is this call `glDeleteVertexArrays`? -/
def isDelVAO : GLCall → Bool
  | GLCall.deleteVertexArrays _ _ => true
  | _ => false

/-- Is this call `glDeleteBuffers`? -/
def isDelVBO : GLCall → Bool
  | GLCall.deleteBuffers _ _ => true
  | _ => false

/-- Is this call `glDeleteProgram`? -/
def isDelProg : GLCall → Bool
  | GLCall.deleteProgram _ => true
  | _ => false

/-- Is this call `glBufferData` (the only buffer-content write in the API
surface `main.cpp` uses)? -/
def isBufferData : GLCall → Bool
  | GLCall.bufferData _ _ _ _ => true
  | _ => false

/-- Calls that determine the rendered image: GPU state mutation, geometry
upload, shader build and draw commands — as opposed to diagnostics
(`cerr`, status/log queries), input polling and presentation plumbing. -/
def isRenderCmd : GLCall → Bool
  | GLCall.genVertexArrays _ _ => true
  | GLCall.genBuffers _ _ => true
  | GLCall.bindVertexArray _ => true
  | GLCall.bindBuffer _ _ => true
  | GLCall.bufferData _ _ _ _ => true
  | GLCall.vertexAttribPointer _ _ _ _ _ _ => true
  | GLCall.enableVertexAttribArray _ => true
  | GLCall.createShader _ _ => true
  | GLCall.shaderSource _ _ => true
  | GLCall.compileShader _ => true
  | GLCall.createProgram _ => true
  | GLCall.attachShader _ _ => true
  | GLCall.linkProgram _ => true
  | GLCall.deleteShader _ => true
  | GLCall.glClear _ => true
  | GLCall.useProgram _ => true
  | GLCall.drawArrays _ _ _ => true
  | _ => false

/-- The render-determining subsequence of a trace. -/
def renderCmds (tr : List GLCall) : List GLCall :=
  tr.filter isRenderCmd

/-! ### Concrete environments (used as evaluation points) -/

/-- All external calls succeed; Escape is pressed from the first frame on. -/
def envA : Env :=
  ⟨true, true, true, true, true, true, [], [], [], fun _ => true, fun _ => false⟩

/-- Initialization succeeds but both compiles and the link fail; Escape is
pressed from the first frame on. -/
def envBadShaders : Env :=
  ⟨true, true, true, false, false, false, ['b', 'a', 'd'], ['b', 'a', 'd'],
    ['l', 'n', 'k'], fun _ => true, fun _ => false⟩

/-- `glfwInit` fails. -/
def envNoInit : Env :=
  ⟨false, true, true, true, true, true, [], [], [], fun _ => false, fun _ => false⟩

/-- `glfwCreateWindow` fails. -/
def envNoWindow : Env :=
  ⟨true, false, true, true, true, true, [], [], [], fun _ => false, fun _ => false⟩

/-- `gladLoadGLLoader` fails. -/
def envNoGlad : Env :=
  ⟨true, true, false, true, true, true, [], [], [], fun _ => false, fun _ => false⟩

/-- The loop trace of a run under `envA` (one full iteration, Escape pressed). -/
def loopTrA : List GLCall :=
  iterBody true

/-- The full trace of a run under `envA`. -/
def trA : List GLCall :=
  setupTrace envA ++ iterBody true ++ shutdownTrace

/-- The full trace of a run under `envBadShaders`. -/
def trB : List GLCall :=
  setupTrace envBadShaders ++ iterBody true ++ shutdownTrace

/-! ### Helper lemmas about the render loop -/

/-- A loop entered with the close flag set performs no calls. -/
lemma renderLoop_some_true {env : Env} {i fuel : Nat} {tr : List GLCall}
    (h : renderLoop env i true fuel = some tr) : tr = [] := by
  cases fuel with
  | zero => simp [renderLoop] at h
  | succ f => simp [renderLoop] at h; exact h

/-- Unfolding one iteration entered with the close flag unset. -/
lemma renderLoop_false_succ (env : Env) (i fuel : Nat) :
    renderLoop env i false (fuel + 1) =
      (renderLoop env (i + 1) (env.escAt i || env.closeAt i) fuel).map
        (fun rest => iterBody (env.escAt i) ++ rest) := by
  simp [renderLoop, iterBody]

/-- A terminating run of the loop is a concatenation of full iteration bodies:
iteration `i + k` contributes exactly `iterBody (env.escAt (i + k))`. -/
lemma renderLoop_join (env : Env) :
    ∀ fuel i tr, renderLoop env i false fuel = some tr →
      ∃ n, tr = ((List.range n).map fun k => iterBody (env.escAt (i + k))).flatten := by
  intro fuel
  induction fuel with
  | zero => intro i tr h; simp [renderLoop] at h
  | succ fuel ih =>
    intro i tr h
    rw [renderLoop_false_succ] at h
    rcases Option.map_eq_some'.mp h with ⟨rest, hrest, rfl⟩
    cases hb : env.escAt i || env.closeAt i with
    | true =>
      rw [hb] at hrest
      have hr := renderLoop_some_true hrest
      subst hr
      exact ⟨1, by simp [List.range_succ]⟩
    | false =>
      rw [hb] at hrest
      rcases ih (i + 1) rest hrest with ⟨n, rfl⟩
      refine ⟨n + 1, ?_⟩
      conv_rhs => rw [List.range_succ_eq_map]
      simp only [List.map_cons, List.flatten_cons, List.map_map, Nat.add_zero]
      congr 1
      congr 1
      refine List.map_congr_left fun k _ => ?_
      simp only [Function.comp_apply]
      have hk : i + 1 + k = i + Nat.succ k := by omega
      rw [hk]

/-- Any terminating nontrivial run of the loop starts with a full iteration
body. -/
lemma renderLoop_false_split {env : Env} {i fuel : Nat} {tr : List GLCall}
    (h : renderLoop env i false fuel = some tr) :
    ∃ esc rest, tr = iterBody esc ++ rest := by
  cases fuel with
  | zero => simp [renderLoop] at h
  | succ f =>
    rw [renderLoop_false_succ] at h
    rcases Option.map_eq_some'.mp h with ⟨rest, _, rfl⟩
    exact ⟨env.escAt i, rest, rfl⟩

/-- Every call of a loop trace belongs to some iteration body. -/
lemma renderLoop_mem (env : Env) :
    ∀ fuel i b tr, renderLoop env i b fuel = some tr →
      ∀ c ∈ tr, ∃ esc, c ∈ iterBody esc := by
  intro fuel
  induction fuel with
  | zero => intro i b tr h; simp [renderLoop] at h
  | succ fuel ih =>
    intro i b tr h c hc
    cases b with
    | true =>
      have := renderLoop_some_true h
      subst this
      simp at hc
    | false =>
      rw [renderLoop_false_succ] at h
      rcases Option.map_eq_some'.mp h with ⟨rest, hrest, rfl⟩
      rcases List.mem_append.mp hc with hm | hm
      · exact ⟨env.escAt i, hm⟩
      · exact ih (i + 1) _ rest hrest c hm

/-- The eight possible calls of an iteration body. -/
lemma mem_iterBody_cases {c : GLCall} {esc : Bool} (h : c ∈ iterBody esc) :
    c = GLCall.getKey GLFW_KEY_ESCAPE esc ∨ c = GLCall.setWindowShouldClose ∨
    c = GLCall.glClear GL_COLOR_BUFFER_BIT ∨ c = GLCall.useProgram shaderProgram ∨
    c = GLCall.bindVertexArray VAO ∨ c = GLCall.drawArrays GL_TRIANGLES 0 3 ∨
    c = GLCall.swapBuffers ∨ c = GLCall.pollEvents := by
  cases esc <;> simp [iterBody] at h <;> tauto

/-- Loop traces contain no calls satisfying a predicate that holds for no
iteration-body call. -/
lemma renderLoop_countP_zero {env : Env} {fuel i : Nat} {b : Bool} {tr : List GLCall}
    (h : renderLoop env i b fuel = some tr) (p : GLCall → Bool)
    (hp : ∀ esc : Bool, ∀ c ∈ iterBody esc, p c = false) :
    tr.countP p = 0 := by
  refine List.countP_eq_zero.mpr fun c hc => ?_
  rcases renderLoop_mem env fuel i b tr h c hc with ⟨esc, hm⟩
  simp [hp esc c hm]

/-- If iterations `s, …, s+i-1` see neither an Escape press nor an OS close
event and iteration `s+i` sees the Escape press, the loop performs exactly
iterations `s, …, s+i` — the Escape iteration runs to completion — and then
stops. -/
lemma renderLoop_escape (env : Env) :
    ∀ i s fuel, i + 2 ≤ fuel →
      (∀ j, j < i → env.escAt (s + j) = false ∧ env.closeAt (s + j) = false) →
      env.escAt (s + i) = true →
      renderLoop env s false fuel =
        some ((((List.range i).map fun k => iterBody (env.escAt (s + k))).flatten)
          ++ iterBody true) := by
  intro i
  induction i with
  | zero =>
    intro s fuel hfuel hpre hesc
    obtain ⟨f, rfl⟩ : ∃ f, fuel = f + 2 := ⟨fuel - 2, by omega⟩
    rw [renderLoop_false_succ]
    rw [Nat.add_zero] at hesc
    rw [hesc]
    simp [renderLoop]
  | succ i ih =>
    intro s fuel hfuel hpre hesc
    obtain ⟨f, rfl⟩ : ∃ f, fuel = f + 1 := ⟨fuel - 1, by omega⟩
    rw [renderLoop_false_succ]
    have h0 := hpre 0 (Nat.succ_pos i)
    rw [Nat.add_zero] at h0
    rw [h0.1, h0.2]
    have hrec := ih (s + 1) f (by omega)
      (fun j hj => by
        have hj1 := hpre (j + 1) (Nat.succ_lt_succ hj)
        have hadd : s + (j + 1) = s + 1 + j := by omega
        rwa [hadd] at hj1)
      (by
        have hadd : s + (i + 1) = s + 1 + i := by omega
        rwa [hadd] at hesc)
    simp only [Bool.or_self]
    rw [hrec]
    simp only [Option.map_some']
    congr 1
    conv_rhs => rw [List.range_succ_eq_map]
    simp only [List.map_cons, List.flatten_cons, List.map_map, Nat.add_zero, h0.1]
    rw [List.append_assoc]
    congr 2
    congr 1
    refine List.map_congr_left fun k _ => ?_
    simp only [Function.comp_apply]
    have hk : s + 1 + k = s + Nat.succ k := by omega
    rw [hk]

/-- None of the gen/delete predicates holds on any iteration-body call. -/
lemma iterBody_no_lifecycle (esc : Bool) :
    ∀ c ∈ iterBody esc,
      isGenVAO c = false ∧ isGenVBO c = false ∧ isCreateProg c = false ∧
      isDelVAO c = false ∧ isDelVBO c = false ∧ isDelProg c = false ∧
      isBufferData c = false := by
  intro c hm
  rcases mem_iterBody_cases hm with rfl | rfl | rfl | rfl | rfl | rfl | rfl | rfl <;>
    exact ⟨rfl, rfl, rfl, rfl, rfl, rfl, rfl⟩

/-- Lifecycle-call counts of the setup trace: one gen per resource, one
program creation, one buffer upload, no deletes — for every environment
(the error-reporting branches add only diagnostics). -/
lemma setupTrace_counts (env : Env) :
    (setupTrace env).countP isGenVAO = 1 ∧ (setupTrace env).countP isGenVBO = 1 ∧
    (setupTrace env).countP isCreateProg = 1 ∧ (setupTrace env).countP isBufferData = 1 ∧
    (setupTrace env).countP isDelVAO = 0 ∧ (setupTrace env).countP isDelVBO = 0 ∧
    (setupTrace env).countP isDelProg = 0 := by
  cases h1 : env.vertexCompileOk <;> cases h2 : env.fragmentCompileOk <;>
    cases h3 : env.linkOk <;>
      simp [setupTrace, contextTrace, windowTrace, initTrace, geomTrace, shaderTrace,
        h1, h2, h3, List.countP_cons, List.countP_append,
        isGenVAO, isGenVBO, isCreateProg, isBufferData, isDelVAO, isDelVBO, isDelProg]

/-- On the all-successes path, a terminating run decomposes into setup, loop
and shutdown, and exits with status 0. -/
lemma mainRun_ok_decomp {env : Env} {fuel : Nat} {tr : List GLCall} {code : Int}
    (h1 : env.glfwInitOk = true) (h2 : env.createWindowOk = true)
    (h3 : env.gladOk = true) (h : mainRun env fuel = some (tr, code)) :
    ∃ loopTr, renderLoop env 0 false fuel = some loopTr ∧
      tr = setupTrace env ++ loopTr ++ shutdownTrace ∧ code = 0 := by
  rw [mainRun, h1, h2, h3] at h
  simp only [Bool.true_eq_false, if_false] at h
  rcases Option.map_eq_some'.mp h with ⟨loopTr, hl, hpair⟩
  exact ⟨loopTr, hl, congrArg Prod.fst hpair.symm, (congrArg Prod.snd hpair).symm⟩

/-- Exhaustive case analysis of a terminating run of `main`: the three early
failure returns and the normal path. -/
lemma mainRun_cases {env : Env} {fuel : Nat} {tr : List GLCall} {code : Int}
    (h : mainRun env fuel = some (tr, code)) :
    (env.glfwInitOk = false ∧ tr = initTrace ∧ code = -1) ∨
    (env.glfwInitOk = true ∧ env.createWindowOk = false ∧
      tr = windowTrace ++ [GLCall.glfwTerminate] ∧ code = -1) ∨
    (env.glfwInitOk = true ∧ env.createWindowOk = true ∧ env.gladOk = false ∧
      tr = contextTrace ++ [GLCall.cerr gladFailMsg] ∧ code = -1) ∨
    (env.glfwInitOk = true ∧ env.createWindowOk = true ∧ env.gladOk = true ∧
      ∃ loopTr, renderLoop env 0 false fuel = some loopTr ∧
        tr = setupTrace env ++ loopTr ++ shutdownTrace ∧ code = 0) := by
  cases h1 : env.glfwInitOk with
  | false =>
    rw [mainRun, h1] at h
    simp only [if_true, reduceIte, Option.some.injEq, Prod.mk.injEq] at h
    exact Or.inl ⟨rfl, h.1.symm, h.2.symm⟩
  | true =>
    cases h2 : env.createWindowOk with
    | false =>
      rw [mainRun, h1, h2] at h
      simp only [Bool.true_eq_false, if_false, reduceIte, Option.some.injEq,
        Prod.mk.injEq] at h
      exact Or.inr (Or.inl ⟨rfl, rfl, h.1.symm, h.2.symm⟩)
    | true =>
      cases h3 : env.gladOk with
      | false =>
        rw [mainRun, h1, h2, h3] at h
        simp only [Bool.true_eq_false, if_false, reduceIte, Option.some.injEq,
          Prod.mk.injEq] at h
        exact Or.inr (Or.inr (Or.inl ⟨rfl, rfl, rfl, h.1.symm, h.2.symm⟩))
      | true =>
        rcases mainRun_ok_decomp h1 h2 h3 h with ⟨loopTr, hl, htr, hc⟩
        exact Or.inr (Or.inr (Or.inr ⟨rfl, rfl, rfl, loopTr, hl, htr, hc⟩))

/-- The render-determining subsequence of the setup is one fixed list,
independent of the environment: the error-reporting branches contribute only
diagnostics. -/
lemma renderCmds_setupTrace (env : Env) :
    renderCmds (setupTrace env) =
      [GLCall.genVertexArrays 1 VAO,
       GLCall.genBuffers 1 VBO,
       GLCall.bindVertexArray VAO,
       GLCall.bindBuffer GL_ARRAY_BUFFER VBO,
       GLCall.bufferData GL_ARRAY_BUFFER (9 * 4) vertices GL_STATIC_DRAW,
       GLCall.vertexAttribPointer 0 3 GL_FLOAT false (3 * 4) 0,
       GLCall.enableVertexAttribArray 0,
       GLCall.createShader GL_VERTEX_SHADER vertexShader,
       GLCall.shaderSource vertexShader vertexShaderSource,
       GLCall.compileShader vertexShader,
       GLCall.createShader GL_FRAGMENT_SHADER fragmentShader,
       GLCall.shaderSource fragmentShader fragmentShaderSource,
       GLCall.compileShader fragmentShader,
       GLCall.createProgram shaderProgram,
       GLCall.attachShader shaderProgram vertexShader,
       GLCall.attachShader shaderProgram fragmentShader,
       GLCall.linkProgram shaderProgram,
       GLCall.deleteShader vertexShader,
       GLCall.deleteShader fragmentShader] := by
  cases h1 : env.vertexCompileOk <;> cases h2 : env.fragmentCompileOk <;>
    cases h3 : env.linkOk <;>
      simp [renderCmds, setupTrace, contextTrace, windowTrace, initTrace,
        geomTrace, shaderTrace, h1, h2, h3, isRenderCmd]

example : mainRun envA 2 = some (trA, 0) := rfl

example : mainRun envBadShaders 2 = some (trB, 0) := rfl

example : renderLoop envA 0 false 2 = some loopTrA := rfl

/-! ### Claims -/

/-- C1: every terminating run of the frame loop is a concatenation of
iteration bodies, each of which performs, in order: poll the Escape key
(setting the close flag exactly when it reads `GLFW_PRESS`), clear the color
buffer, bind the linked shader program, bind the vertex-array descriptor,
issue one triangle draw call over 3 vertices starting at index 0, swap the
presented buffer, and poll window events. -/
theorem frame_loop_steps_in_order (env : Env) (fuel : Nat) (tr : List GLCall)
    (h : renderLoop env 0 false fuel = some tr) :
    ∃ n, tr = ((List.range n).map fun k =>
      GLCall.getKey GLFW_KEY_ESCAPE (env.escAt k) ::
        ((if env.escAt k then [GLCall.setWindowShouldClose] else []) ++
          [GLCall.glClear GL_COLOR_BUFFER_BIT,
           GLCall.useProgram shaderProgram,
           GLCall.bindVertexArray VAO,
           GLCall.drawArrays GL_TRIANGLES 0 3,
           GLCall.swapBuffers,
           GLCall.pollEvents])).flatten := by
  rcases renderLoop_join env fuel 0 tr h with ⟨n, rfl⟩
  refine ⟨n, ?_⟩
  congr 1
  refine List.map_congr_left fun k _ => ?_
  rw [Nat.zero_add]
  rfl

/-- C1 witness: evaluated on a run whose single iteration sees the Escape
press. -/
theorem frame_loop_steps_in_order_witness :
    ∃ n, loopTrA = ((List.range n).map fun k =>
      GLCall.getKey GLFW_KEY_ESCAPE (envA.escAt k) ::
        ((if envA.escAt k then [GLCall.setWindowShouldClose] else []) ++
          [GLCall.glClear GL_COLOR_BUFFER_BIT,
           GLCall.useProgram shaderProgram,
           GLCall.bindVertexArray VAO,
           GLCall.drawArrays GL_TRIANGLES 0 3,
           GLCall.swapBuffers,
           GLCall.pollEvents])).flatten :=
  frame_loop_steps_in_order envA 2 loopTrA rfl

/-- C5: if iterations `0, …, i-1` see neither an Escape press nor an OS close
event and the Escape key reads pressed in iteration `i`, the close flag is
set during iteration `i` but that iteration still completes in full (clear,
program and VAO binds, draw, swap, event poll all execute after the flag is
set), and the loop exits at the top of iteration `i+1`, performing no
further calls. -/
theorem escape_completes_iteration_then_exits (env : Env) (i fuel : Nat)
    (hfuel : i + 2 ≤ fuel)
    (hpre : ∀ j, j < i → env.escAt j = false ∧ env.closeAt j = false)
    (hesc : env.escAt i = true) :
    renderLoop env 0 false fuel =
      some ((((List.range i).map fun k => iterBody (env.escAt k)).flatten) ++
        [GLCall.getKey GLFW_KEY_ESCAPE true,
         GLCall.setWindowShouldClose,
         GLCall.glClear GL_COLOR_BUFFER_BIT,
         GLCall.useProgram shaderProgram,
         GLCall.bindVertexArray VAO,
         GLCall.drawArrays GL_TRIANGLES 0 3,
         GLCall.swapBuffers,
         GLCall.pollEvents]) := by
  have hmain := renderLoop_escape env i 0 fuel hfuel
    (fun j hj => by simpa using hpre j hj) (by simpa using hesc)
  rw [hmain]
  congr 2
  congr 1
  exact List.map_congr_left fun k _ => by rw [Nat.zero_add]

/-- C5 witness: Escape pressed in iteration 0 of a concrete run. -/
theorem escape_completes_iteration_then_exits_witness :
    renderLoop envA 0 false 2 =
      some ((((List.range 0).map fun k => iterBody (envA.escAt k)).flatten) ++
        [GLCall.getKey GLFW_KEY_ESCAPE true,
         GLCall.setWindowShouldClose,
         GLCall.glClear GL_COLOR_BUFFER_BIT,
         GLCall.useProgram shaderProgram,
         GLCall.bindVertexArray VAO,
         GLCall.drawArrays GL_TRIANGLES 0 3,
         GLCall.swapBuffers,
         GLCall.pollEvents]) :=
  escape_completes_iteration_then_exits envA 0 2 (by decide)
    (fun j hj => absurd hj (Nat.not_lt_zero j)) rfl

/-- C3: if windowing-library initialization fails the process exits
immediately with status -1; if window creation fails it calls
`glfwTerminate` and then exits with -1; if GL loader initialization fails
it prints a message to standard error and exits with -1; and a terminating
run exits with status 0 exactly when all three initialization steps
succeed (the normal window-close path). -/
theorem exit_status_paths (envI envW envG env : Env) (fuelF fuel : Nat)
    (tr : List GLCall) (code : Int)
    (hI : envI.glfwInitOk = false)
    (hW1 : envW.glfwInitOk = true) (hW2 : envW.createWindowOk = false)
    (hG1 : envG.glfwInitOk = true) (hG2 : envG.createWindowOk = true)
    (hG3 : envG.gladOk = false)
    (h : mainRun env fuel = some (tr, code)) :
    mainRun envI fuelF = some (initTrace, -1) ∧
    mainRun envW fuelF = some (windowTrace ++ [GLCall.glfwTerminate], -1) ∧
    mainRun envG fuelF = some (contextTrace ++ [GLCall.cerr gladFailMsg], -1) ∧
    (code = 0 ↔
      (env.glfwInitOk = true ∧ env.createWindowOk = true ∧ env.gladOk = true)) := by
  refine ⟨by rw [mainRun, hI]; rfl, by rw [mainRun, hW1, hW2]; rfl,
    by rw [mainRun, hG1, hG2, hG3]; rfl, ?_⟩
  rcases mainRun_cases h with ⟨f1, _, hc⟩ | ⟨f1, f2, _, hc⟩ |
    ⟨f1, f2, f3, _, hc⟩ | ⟨f1, f2, f3, _, _, _, hc⟩
  · subst hc; simp [f1]
  · subst hc; simp [f2]
  · subst hc; simp [f3]
  · subst hc; simp [f1, f2, f3]

/-- C3 witness: the three failure environments and one successful run. -/
theorem exit_status_paths_witness :
    mainRun envNoInit 1 = some (initTrace, -1) ∧
    mainRun envNoWindow 1 = some (windowTrace ++ [GLCall.glfwTerminate], -1) ∧
    mainRun envNoGlad 1 = some (contextTrace ++ [GLCall.cerr gladFailMsg], -1) ∧
    ((0 : Int) = 0 ↔
      (envA.glfwInitOk = true ∧ envA.createWindowOk = true ∧ envA.gladOk = true)) :=
  exit_status_paths envNoInit envNoWindow envNoGlad envA 1 2 trA 0
    rfl rfl rfl rfl rfl rfl rfl

/-- C4: on the normal loop-exit path the trace ends with exactly the four
cleanup calls — delete the vertex-array descriptor, delete the vertex
buffer, delete the shader program, terminate the windowing library, in this
order — each delete occurring exactly once in the whole run, and the exit
status is 0. -/
theorem shutdown_deletes_once_in_order (env : Env) (fuel : Nat)
    (tr : List GLCall) (code : Int)
    (h1 : env.glfwInitOk = true) (h2 : env.createWindowOk = true)
    (h3 : env.gladOk = true) (h : mainRun env fuel = some (tr, code)) :
    (∃ pre, tr = pre ++
      [GLCall.deleteVertexArrays 1 VAO,
       GLCall.deleteBuffers 1 VBO,
       GLCall.deleteProgram shaderProgram,
       GLCall.glfwTerminate]) ∧
    tr.countP isDelVAO = 1 ∧ tr.countP isDelVBO = 1 ∧ tr.countP isDelProg = 1 ∧
    code = 0 := by
  rcases mainRun_ok_decomp h1 h2 h3 h with ⟨loopTr, hl, rfl, rfl⟩
  have hsetup := setupTrace_counts env
  have hloopVAO : loopTr.countP isDelVAO = 0 :=
    renderLoop_countP_zero hl isDelVAO
      (fun esc c hm => (iterBody_no_lifecycle esc c hm).2.2.2.1)
  have hloopVBO : loopTr.countP isDelVBO = 0 :=
    renderLoop_countP_zero hl isDelVBO
      (fun esc c hm => (iterBody_no_lifecycle esc c hm).2.2.2.2.1)
  have hloopProg : loopTr.countP isDelProg = 0 :=
    renderLoop_countP_zero hl isDelProg
      (fun esc c hm => (iterBody_no_lifecycle esc c hm).2.2.2.2.2.1)
  refine ⟨⟨setupTrace env ++ loopTr, by rw [shutdownTrace, List.append_assoc]⟩,
    ?_, ?_, ?_, rfl⟩ <;>
    simp [List.countP_append, hsetup.2.2.2.2.1, hsetup.2.2.2.2.2.1,
      hsetup.2.2.2.2.2.2, hloopVAO, hloopVBO, hloopProg, shutdownTrace,
      List.countP_cons, isDelVAO, isDelVBO, isDelProg]

/-- C4 witness: a concrete successful run. -/
theorem shutdown_deletes_once_in_order_witness :
    (∃ pre, trA = pre ++
      [GLCall.deleteVertexArrays 1 VAO,
       GLCall.deleteBuffers 1 VBO,
       GLCall.deleteProgram shaderProgram,
       GLCall.glfwTerminate]) ∧
    trA.countP isDelVAO = 1 ∧ trA.countP isDelVBO = 1 ∧ trA.countP isDelProg = 1 ∧
    (0 : Int) = 0 :=
  shutdown_deletes_once_in_order envA 2 trA 0 rfl rfl rfl rfl

/-- C10: on the GLAD-loader failure path the process returns -1 without
calling `glfwTerminate` (the windowing library is not released on that exit
path), whereas the window-creation failure path does call `glfwTerminate`
before returning -1. -/
theorem glad_failure_skips_terminate (envG envW : Env) (fuelG fuelW : Nat)
    (h1 : envG.glfwInitOk = true) (h2 : envG.createWindowOk = true)
    (h3 : envG.gladOk = false)
    (h4 : envW.glfwInitOk = true) (h5 : envW.createWindowOk = false) :
    (∃ tr, mainRun envG fuelG = some (tr, -1) ∧ GLCall.glfwTerminate ∉ tr) ∧
    (∃ tr, mainRun envW fuelW = some (tr, -1) ∧ GLCall.glfwTerminate ∈ tr) := by
  constructor
  · refine ⟨contextTrace ++ [GLCall.cerr gladFailMsg],
      by rw [mainRun, h1, h2, h3]; rfl, ?_⟩
    decide
  · exact ⟨windowTrace ++ [GLCall.glfwTerminate],
      by rw [mainRun, h4, h5]; rfl, by decide⟩

/-- C10 witness: the two concrete failure environments. -/
theorem glad_failure_skips_terminate_witness :
    (∃ tr, mainRun envNoGlad 1 = some (tr, -1) ∧ GLCall.glfwTerminate ∉ tr) ∧
    (∃ tr, mainRun envNoWindow 1 = some (tr, -1) ∧ GLCall.glfwTerminate ∈ tr) :=
  glad_failure_skips_terminate envNoGlad envNoWindow 1 1 rfl rfl rfl rfl rfl

/-- C2: whenever a shader compile or the link fails, the run fetches at most
511 characters of the corresponding log into the 512-byte buffer and prints
them to standard error; and regardless of the compile/link flags, a
terminating run still issues the draw call of the first loop iteration and
exits with status 0 — the build failures are non-fatal. -/
theorem shader_failures_logged_nonfatal (env : Env) (fuel : Nat)
    (tr : List GLCall) (code : Int)
    (h1 : env.glfwInitOk = true) (h2 : env.createWindowOk = true)
    (h3 : env.gladOk = true) (h : mainRun env fuel = some (tr, code)) :
    (env.vertexCompileOk = false →
       GLCall.getShaderInfoLog vertexShader 512 (logTrunc env.vertexLog) ∈ tr ∧
       GLCall.cerrLog vsErrHeader (logTrunc env.vertexLog) ∈ tr) ∧
    (env.fragmentCompileOk = false →
       GLCall.getShaderInfoLog fragmentShader 512 (logTrunc env.fragmentLog) ∈ tr ∧
       GLCall.cerrLog fsErrHeader (logTrunc env.fragmentLog) ∈ tr) ∧
    (env.linkOk = false →
       GLCall.getProgramInfoLog shaderProgram 512 (logTrunc env.programLog) ∈ tr ∧
       GLCall.cerrLog linkErrHeader (logTrunc env.programLog) ∈ tr) ∧
    (logTrunc env.vertexLog).length ≤ 511 ∧
    (logTrunc env.fragmentLog).length ≤ 511 ∧
    (logTrunc env.programLog).length ≤ 511 ∧
    GLCall.drawArrays GL_TRIANGLES 0 3 ∈ tr ∧
    code = 0 := by
  rcases mainRun_ok_decomp h1 h2 h3 h with ⟨loopTr, hl, rfl, rfl⟩
  refine ⟨?_, ?_, ?_, ?_, ?_, ?_, ?_, rfl⟩
  · intro hv
    constructor <;>
      · refine List.mem_append.mpr (Or.inl (List.mem_append.mpr (Or.inl ?_)))
        simp [setupTrace, shaderTrace, hv]
  · intro hf
    constructor <;>
      · refine List.mem_append.mpr (Or.inl (List.mem_append.mpr (Or.inl ?_)))
        simp [setupTrace, shaderTrace, hf]
  · intro hk
    constructor <;>
      · refine List.mem_append.mpr (Or.inl (List.mem_append.mpr (Or.inl ?_)))
        simp [setupTrace, shaderTrace, hk]
  · simp only [logTrunc, List.length_take]; omega
  · simp only [logTrunc, List.length_take]; omega
  · simp only [logTrunc, List.length_take]; omega
  · rcases renderLoop_false_split hl with ⟨esc, rest, rfl⟩
    refine List.mem_append.mpr (Or.inl (List.mem_append.mpr (Or.inr
      (List.mem_append.mpr (Or.inl ?_)))))
    cases esc <;> simp [iterBody]

/-- C2 witness: a run in which both compiles and the link fail. -/
theorem shader_failures_logged_nonfatal_witness :
    (envBadShaders.vertexCompileOk = false →
       GLCall.getShaderInfoLog vertexShader 512 (logTrunc envBadShaders.vertexLog) ∈ trB ∧
       GLCall.cerrLog vsErrHeader (logTrunc envBadShaders.vertexLog) ∈ trB) ∧
    (envBadShaders.fragmentCompileOk = false →
       GLCall.getShaderInfoLog fragmentShader 512 (logTrunc envBadShaders.fragmentLog) ∈ trB ∧
       GLCall.cerrLog fsErrHeader (logTrunc envBadShaders.fragmentLog) ∈ trB) ∧
    (envBadShaders.linkOk = false →
       GLCall.getProgramInfoLog shaderProgram 512 (logTrunc envBadShaders.programLog) ∈ trB ∧
       GLCall.cerrLog linkErrHeader (logTrunc envBadShaders.programLog) ∈ trB) ∧
    (logTrunc envBadShaders.vertexLog).length ≤ 511 ∧
    (logTrunc envBadShaders.fragmentLog).length ≤ 511 ∧
    (logTrunc envBadShaders.programLog).length ≤ 511 ∧
    GLCall.drawArrays GL_TRIANGLES 0 3 ∈ trB ∧
    (0 : Int) = 0 :=
  shader_failures_logged_nonfatal envBadShaders 2 trB 0 rfl rfl rfl rfl

/-- C6 counterexample: on the `glfwInit`-failure exit path the process exits
with trace `[glfwInit]`, in which none of the vertex buffer, vertex-array
descriptor or shader program is ever created — and none is destroyed (zero
delete calls, not one) — so the claim's "all three are created before the
first frame and each is destroyed exactly once … on every exit path of the
process" fails on this exit path. -/
theorem resource_lifecycle_counterexample :
    mainRun envNoInit 1 = some ([GLCall.glfwInit], -1) ∧
    [GLCall.glfwInit].countP isGenVAO = 0 ∧
    [GLCall.glfwInit].countP isGenVBO = 0 ∧
    [GLCall.glfwInit].countP isCreateProg = 0 ∧
    [GLCall.glfwInit].countP isDelVAO = 0 ∧
    [GLCall.glfwInit].countP isDelVBO = 0 ∧
    [GLCall.glfwInit].countP isDelProg = 0 :=
  ⟨rfl, rfl, rfl, rfl, rfl, rfl, rfl⟩

/-- C6 amended: in every terminating run at most one vertex buffer, one
vertex-array descriptor and one shader program are ever created and at most
one of each deleted; whenever the draw loop is entered (all initialization
succeeded) each of the three is created exactly once before the first frame
and deleted exactly once after the loop exits; and on the early-failure exit
paths none of the three is created or destroyed. -/
theorem resource_lifecycle_amended (env : Env) (fuel : Nat)
    (tr : List GLCall) (code : Int) (h : mainRun env fuel = some (tr, code)) :
    tr.countP isGenVAO ≤ 1 ∧ tr.countP isGenVBO ≤ 1 ∧ tr.countP isCreateProg ≤ 1 ∧
    tr.countP isDelVAO ≤ 1 ∧ tr.countP isDelVBO ≤ 1 ∧ tr.countP isDelProg ≤ 1 ∧
    (env.glfwInitOk = true → env.createWindowOk = true → env.gladOk = true →
      ∃ loopTr, renderLoop env 0 false fuel = some loopTr ∧
        tr = setupTrace env ++ loopTr ++ shutdownTrace ∧
        (setupTrace env).countP isGenVAO = 1 ∧
        (setupTrace env).countP isGenVBO = 1 ∧
        (setupTrace env).countP isCreateProg = 1 ∧
        (setupTrace env).countP isDelVAO = 0 ∧
        (setupTrace env).countP isDelVBO = 0 ∧
        (setupTrace env).countP isDelProg = 0 ∧
        loopTr.countP isGenVAO = 0 ∧ loopTr.countP isGenVBO = 0 ∧
        loopTr.countP isCreateProg = 0 ∧ loopTr.countP isDelVAO = 0 ∧
        loopTr.countP isDelVBO = 0 ∧ loopTr.countP isDelProg = 0 ∧
        shutdownTrace.countP isDelVAO = 1 ∧ shutdownTrace.countP isDelVBO = 1 ∧
        shutdownTrace.countP isDelProg = 1 ∧ shutdownTrace.countP isGenVAO = 0 ∧
        shutdownTrace.countP isGenVBO = 0 ∧ shutdownTrace.countP isCreateProg = 0) ∧
    ((env.glfwInitOk = false ∨ env.createWindowOk = false ∨ env.gladOk = false) →
      tr.countP isGenVAO = 0 ∧ tr.countP isGenVBO = 0 ∧ tr.countP isCreateProg = 0 ∧
      tr.countP isDelVAO = 0 ∧ tr.countP isDelVBO = 0 ∧ tr.countP isDelProg = 0) := by
  rcases mainRun_cases h with ⟨f1, rfl, rfl⟩ | ⟨f1, f2, rfl, rfl⟩ |
    ⟨f1, f2, f3, rfl, rfl⟩ | ⟨f1, f2, f3, loopTr, hl, rfl, rfl⟩
  · refine ⟨by decide, by decide, by decide, by decide, by decide, by decide, ?_, ?_⟩
    · intro hI _ _; rw [f1] at hI; simp at hI
    · intro _
      exact ⟨by decide, by decide, by decide, by decide, by decide, by decide⟩
  · refine ⟨by decide, by decide, by decide, by decide, by decide, by decide, ?_, ?_⟩
    · intro _ hw _; rw [f2] at hw; simp at hw
    · intro _
      exact ⟨by decide, by decide, by decide, by decide, by decide, by decide⟩
  · refine ⟨by decide, by decide, by decide, by decide, by decide, by decide, ?_, ?_⟩
    · intro _ _ hg; rw [f3] at hg; simp at hg
    · intro _
      exact ⟨by decide, by decide, by decide, by decide, by decide, by decide⟩
  · have hset := setupTrace_counts env
    have lg1 : loopTr.countP isGenVAO = 0 :=
      renderLoop_countP_zero hl _ (fun esc c hm => (iterBody_no_lifecycle esc c hm).1)
    have lg2 : loopTr.countP isGenVBO = 0 :=
      renderLoop_countP_zero hl _ (fun esc c hm => (iterBody_no_lifecycle esc c hm).2.1)
    have lg3 : loopTr.countP isCreateProg = 0 :=
      renderLoop_countP_zero hl _ (fun esc c hm => (iterBody_no_lifecycle esc c hm).2.2.1)
    have lg4 : loopTr.countP isDelVAO = 0 :=
      renderLoop_countP_zero hl _ (fun esc c hm => (iterBody_no_lifecycle esc c hm).2.2.2.1)
    have lg5 : loopTr.countP isDelVBO = 0 :=
      renderLoop_countP_zero hl _ (fun esc c hm => (iterBody_no_lifecycle esc c hm).2.2.2.2.1)
    have lg6 : loopTr.countP isDelProg = 0 :=
      renderLoop_countP_zero hl _ (fun esc c hm => (iterBody_no_lifecycle esc c hm).2.2.2.2.2.1)
    have t1 : (setupTrace env ++ loopTr ++ shutdownTrace).countP isGenVAO = 1 := by
      rw [List.countP_append, List.countP_append, hset.1, lg1]; decide
    have t2 : (setupTrace env ++ loopTr ++ shutdownTrace).countP isGenVBO = 1 := by
      rw [List.countP_append, List.countP_append, hset.2.1, lg2]; decide
    have t3 : (setupTrace env ++ loopTr ++ shutdownTrace).countP isCreateProg = 1 := by
      rw [List.countP_append, List.countP_append, hset.2.2.1, lg3]; decide
    have t4 : (setupTrace env ++ loopTr ++ shutdownTrace).countP isDelVAO = 1 := by
      rw [List.countP_append, List.countP_append, hset.2.2.2.2.1, lg4]; decide
    have t5 : (setupTrace env ++ loopTr ++ shutdownTrace).countP isDelVBO = 1 := by
      rw [List.countP_append, List.countP_append, hset.2.2.2.2.2.1, lg5]; decide
    have t6 : (setupTrace env ++ loopTr ++ shutdownTrace).countP isDelProg = 1 := by
      rw [List.countP_append, List.countP_append, hset.2.2.2.2.2.2, lg6]; decide
    refine ⟨le_of_eq t1, le_of_eq t2, le_of_eq t3, le_of_eq t4, le_of_eq t5,
      le_of_eq t6, ?_, ?_⟩
    · intro _ _ _
      exact ⟨loopTr, hl, rfl, hset.1, hset.2.1, hset.2.2.1, hset.2.2.2.2.1,
        hset.2.2.2.2.2.1, hset.2.2.2.2.2.2, lg1, lg2, lg3, lg4, lg5, lg6,
        by decide, by decide, by decide, by decide, by decide, by decide⟩
    · intro hfail
      rcases hfail with hf | hf | hf
      · rw [f1] at hf; simp at hf
      · rw [f2] at hf; simp at hf
      · rw [f3] at hf; simp at hf

/-- C6 amended witness: a concrete successful run. -/
theorem resource_lifecycle_amended_witness :
    trA.countP isGenVAO ≤ 1 ∧ trA.countP isGenVBO ≤ 1 ∧ trA.countP isCreateProg ≤ 1 ∧
    trA.countP isDelVAO ≤ 1 ∧ trA.countP isDelVBO ≤ 1 ∧ trA.countP isDelProg ≤ 1 ∧
    (envA.glfwInitOk = true → envA.createWindowOk = true → envA.gladOk = true →
      ∃ loopTr, renderLoop envA 0 false 2 = some loopTr ∧
        trA = setupTrace envA ++ loopTr ++ shutdownTrace ∧
        (setupTrace envA).countP isGenVAO = 1 ∧
        (setupTrace envA).countP isGenVBO = 1 ∧
        (setupTrace envA).countP isCreateProg = 1 ∧
        (setupTrace envA).countP isDelVAO = 0 ∧
        (setupTrace envA).countP isDelVBO = 0 ∧
        (setupTrace envA).countP isDelProg = 0 ∧
        loopTr.countP isGenVAO = 0 ∧ loopTr.countP isGenVBO = 0 ∧
        loopTr.countP isCreateProg = 0 ∧ loopTr.countP isDelVAO = 0 ∧
        loopTr.countP isDelVBO = 0 ∧ loopTr.countP isDelProg = 0 ∧
        shutdownTrace.countP isDelVAO = 1 ∧ shutdownTrace.countP isDelVBO = 1 ∧
        shutdownTrace.countP isDelProg = 1 ∧ shutdownTrace.countP isGenVAO = 0 ∧
        shutdownTrace.countP isGenVBO = 0 ∧ shutdownTrace.countP isCreateProg = 0) ∧
    ((envA.glfwInitOk = false ∨ envA.createWindowOk = false ∨ envA.gladOk = false) →
      trA.countP isGenVAO = 0 ∧ trA.countP isGenVBO = 0 ∧ trA.countP isCreateProg = 0 ∧
      trA.countP isDelVAO = 0 ∧ trA.countP isDelVBO = 0 ∧ trA.countP isDelProg = 0) :=
  resource_lifecycle_amended envA 2 trA 0 rfl

/-- C7: the uploaded geometry is exactly the fixed 9-float array encoding the
three vertices (-0.5,-0.5,0), (0.5,-0.5,0), (0,0.5,0); it is uploaded by a
single `glBufferData` call, before the loop, with the static-draw usage hint
and size 9*sizeof(float), and no buffer write occurs afterwards; attribute
slot 0 is configured as 3 floats per vertex with stride 3*sizeof(float) and
offset 0, not normalized, and enabled. -/
theorem geometry_uploaded_once_static (env : Env) (fuel : Nat)
    (tr : List GLCall) (code : Int)
    (h1 : env.glfwInitOk = true) (h2 : env.createWindowOk = true)
    (h3 : env.gladOk = true) (h : mainRun env fuel = some (tr, code)) :
    vertices = [-1/2, -1/2, 0, 1/2, -1/2, 0, 0, 1/2, 0] ∧
    vec3sOfFloats vertices =
      [⟨-1/2, -1/2, 0⟩, ⟨1/2, -1/2, 0⟩, ⟨0, 1/2, 0⟩] ∧
    (∃ loopTr, tr = setupTrace env ++ loopTr ++ shutdownTrace ∧
       GLCall.bufferData GL_ARRAY_BUFFER (9 * 4) vertices GL_STATIC_DRAW ∈
         setupTrace env ∧
       (loopTr ++ shutdownTrace).countP isBufferData = 0) ∧
    tr.countP isBufferData = 1 ∧
    GLCall.vertexAttribPointer 0 3 GL_FLOAT false (3 * 4) 0 ∈ tr ∧
    GLCall.enableVertexAttribArray 0 ∈ tr := by
  rcases mainRun_ok_decomp h1 h2 h3 h with ⟨loopTr, hl, rfl, rfl⟩
  have hset := setupTrace_counts env
  have hloop : loopTr.countP isBufferData = 0 :=
    renderLoop_countP_zero hl _
      (fun esc c hm => (iterBody_no_lifecycle esc c hm).2.2.2.2.2.2)
  refine ⟨rfl, rfl, ⟨loopTr, rfl, ?_, ?_⟩, ?_, ?_, ?_⟩
  · simp [setupTrace, geomTrace]
  · rw [List.countP_append, hloop]; decide
  · rw [List.countP_append, List.countP_append, hset.2.2.2.1, hloop]; decide
  · refine List.mem_append.mpr (Or.inl (List.mem_append.mpr (Or.inl ?_)))
    simp [setupTrace, geomTrace]
  · refine List.mem_append.mpr (Or.inl (List.mem_append.mpr (Or.inl ?_)))
    simp [setupTrace, geomTrace]

/-- C7 witness: a concrete successful run. -/
theorem geometry_uploaded_once_static_witness :
    vertices = [-1/2, -1/2, 0, 1/2, -1/2, 0, 0, 1/2, 0] ∧
    vec3sOfFloats vertices =
      [⟨-1/2, -1/2, 0⟩, ⟨1/2, -1/2, 0⟩, ⟨0, 1/2, 0⟩] ∧
    (∃ loopTr, trA = setupTrace envA ++ loopTr ++ shutdownTrace ∧
       GLCall.bufferData GL_ARRAY_BUFFER (9 * 4) vertices GL_STATIC_DRAW ∈
         setupTrace envA ∧
       (loopTr ++ shutdownTrace).countP isBufferData = 0) ∧
    trA.countP isBufferData = 1 ∧
    GLCall.vertexAttribPointer 0 3 GL_FLOAT false (3 * 4) 0 ∈ trA ∧
    GLCall.enableVertexAttribArray 0 ∈ trA :=
  geometry_uploaded_once_static envA 2 trA 0 rfl rfl rfl rfl

/-- C8: the embedded vertex stage is an identity transform (`gl_Position =
vec4(aPos, 1.0)`, so after the perspective divide every position passes
through unchanged), the embedded fragment stage emits the constant orange
color (1.0, 0.5, 0.2, 1.0) for every fragment, the three uploaded vertices
land exactly on the device coordinates (-0.5,-0.5,0), (0.5,-0.5,0),
(0,0.5,0), and in a run whose link succeeds the trace records a true
link-status flag and the loop draws that triangle with the linked program
bound. -/
theorem shaders_identity_and_orange_triangle (env : Env) (fuel : Nat)
    (tr : List GLCall) (code : Int)
    (h1 : env.glfwInitOk = true) (h2 : env.createWindowOk = true)
    (h3 : env.gladOk = true) (hlink : env.linkOk = true)
    (h : mainRun env fuel = some (tr, code)) :
    vertexShaderMain = (fun aPos => (⟨aPos.x, aPos.y, aPos.z, 1⟩ : Vec4)) ∧
    (fun aPos => ndcOf (vertexShaderMain aPos)) = (fun aPos : Vec3 => aPos) ∧
    fragmentShaderMain = ⟨1, 1/2, 1/5, 1⟩ ∧
    (vec3sOfFloats vertices).map (fun p => ndcOf (vertexShaderMain p)) =
      [⟨-1/2, -1/2, 0⟩, ⟨1/2, -1/2, 0⟩, ⟨0, 1/2, 0⟩] ∧
    GLCall.getProgramiv shaderProgram GL_LINK_STATUS true ∈ tr ∧
    GLCall.useProgram shaderProgram ∈ tr ∧
    GLCall.drawArrays GL_TRIANGLES 0 3 ∈ tr := by
  rcases mainRun_ok_decomp h1 h2 h3 h with ⟨loopTr, hl, rfl, rfl⟩
  refine ⟨rfl, ?_, rfl, ?_, ?_, ?_, ?_⟩
  · funext p
    simp [ndcOf, vertexShaderMain]
  · simp [vertices, vec3sOfFloats, vertexShaderMain, ndcOf]
  · refine List.mem_append.mpr (Or.inl (List.mem_append.mpr (Or.inl ?_)))
    simp [setupTrace, shaderTrace, hlink]
  · rcases renderLoop_false_split hl with ⟨esc, rest, rfl⟩
    refine List.mem_append.mpr (Or.inl (List.mem_append.mpr (Or.inr
      (List.mem_append.mpr (Or.inl ?_)))))
    cases esc <;> simp [iterBody]
  · rcases renderLoop_false_split hl with ⟨esc, rest, rfl⟩
    refine List.mem_append.mpr (Or.inl (List.mem_append.mpr (Or.inr
      (List.mem_append.mpr (Or.inl ?_)))))
    cases esc <;> simp [iterBody]

/-- C8 witness: a concrete successful run. -/
theorem shaders_identity_and_orange_triangle_witness :
    vertexShaderMain = (fun aPos => (⟨aPos.x, aPos.y, aPos.z, 1⟩ : Vec4)) ∧
    (fun aPos => ndcOf (vertexShaderMain aPos)) = (fun aPos : Vec3 => aPos) ∧
    fragmentShaderMain = ⟨1, 1/2, 1/5, 1⟩ ∧
    (vec3sOfFloats vertices).map (fun p => ndcOf (vertexShaderMain p)) =
      [⟨-1/2, -1/2, 0⟩, ⟨1/2, -1/2, 0⟩, ⟨0, 1/2, 0⟩] ∧
    GLCall.getProgramiv shaderProgram GL_LINK_STATUS true ∈ trA ∧
    GLCall.useProgram shaderProgram ∈ trA ∧
    GLCall.drawArrays GL_TRIANGLES 0 3 ∈ trA :=
  shaders_identity_and_orange_triangle envA 2 trA 0 rfl rfl rfl rfl rfl

/-- C9: the rendered output is environment-independent — the
render-determining call sequence of the setup is one fixed list whatever the
external library answers, every loop iteration issues the same fixed
render-command list (clear, program bind, VAO bind, one 3-vertex triangle
draw) whatever the input state, and the fragment color is the embedded
constant — so two runs produce identical rendered frames: no randomness or
time-based state influences any frame. -/
theorem rendering_deterministic (env₁ env₂ : Env) (esc₁ esc₂ : Bool) :
    renderCmds (setupTrace env₁) = renderCmds (setupTrace env₂) ∧
    renderCmds (iterBody esc₁) = renderCmds (iterBody esc₂) ∧
    renderCmds (iterBody esc₁) =
      [GLCall.glClear GL_COLOR_BUFFER_BIT,
       GLCall.useProgram shaderProgram,
       GLCall.bindVertexArray VAO,
       GLCall.drawArrays GL_TRIANGLES 0 3] ∧
    fragmentShaderMain = ⟨1, 1/2, 1/5, 1⟩ := by
  refine ⟨(renderCmds_setupTrace env₁).trans (renderCmds_setupTrace env₂).symm,
    ?_, ?_, rfl⟩
  · cases esc₁ <;> cases esc₂ <;> rfl
  · cases esc₁ <;> rfl

end Engine3D
